import Mathlib

/-!
Shallow embedding of `src/backend/annotate_video.py`: a command-line tool
that submits a local video file to a remote multimodal inference API and
persists the returned textual annotation in a JSON file and a plain-text
file.  Machine floats of the source are modelled as exact rationals; the
file system, the remote service, the clock and per-path write permission
are explicit parameters of each operation.
-/

namespace AnnotateVideo

/-- A file system, modelled as an association list from path to the UTF-8
text content of an existing file. -/
structure FileSystem where
  files : List (String × String)
deriving DecidableEq

/-- Reading a file: `some content` when the path exists, `none` otherwise. -/
def FileSystem.read (fs : FileSystem) (p : String) : Option String :=
  fs.files.lookup p

/-- Embeds `Path.exists()` of the source. -/
def FileSystem.existsFile (fs : FileSystem) (p : String) : Bool :=
  (fs.read p).isSome

/-- Constant `MODEL = 'qwen-vl-max-latest'` (line 24 of the source). -/
def MODEL : String := "qwen-vl-max-latest"

/-- Constant `FPS = 1.0` (line 27 of the source). -/
def FPS : ℚ := 1

/-- Constant `TEMPERATURE = 0.3` (line 30 of the source). -/
def TEMPERATURE : ℚ := 3/10

/-- Constant `MAX_TOKENS = 4000` (line 31 of the source). -/
def MAX_TOKENS : ℕ := 4000

/-- The mutable fields of `VideoAnnotator` set in `__init__`. -/
structure Config where
  model : String
  fps : ℚ
  temperature : ℚ
  maxTokens : ℕ
deriving DecidableEq

/-- Embeds `VideoAnnotator.__init__`: the process-wide defaults. -/
def initConfig : Config :=
  { model := MODEL, fps := FPS, temperature := TEMPERATURE, maxTokens := MAX_TOKENS }

/-- The Python exceptions the script can raise: `FileNotFoundError`
(line 96 and the `open` of a missing `--prompt` file) and the generic
`Exception` of line 160.  Each carries its `str(e)` text. -/
inductive PyError where
  | fileNotFound (msg : String)
  | exception (msg : String)
deriving DecidableEq

/-- Text `str(e)` of a raised exception. -/
def pyErrorText : PyError → String
  | .fileNotFound m => m
  | .exception m => m

/-- One content block of the API message (lines 124-132 of the source). -/
inductive ContentBlock where
  | video (url : String) (fps : ℚ)
  | text (content : String)
deriving DecidableEq

/-- One message of the conversation payload (lines 120-135). -/
structure ApiMessage where
  role : String
  content : List ContentBlock
deriving DecidableEq

/-- The arguments of `MultiModalConversation.call` (lines 147-153). -/
structure ApiRequest where
  model : String
  messages : List ApiMessage
  temperature : ℚ
  maxTokens : ℕ
  topP : ℚ
deriving DecidableEq

/-- The response of the remote service: `status_code`, `message`, and (on
success) `output.choices[0].message.content`. -/
structure ApiResponse where
  statusCode : ℕ
  message : String
  content : String

/-- The external world one run interacts with: the file system, the remote
service, the current directory (for `Path.absolute()`), the script's
directory (`Path(__file__).parent`), the formatted wall-clock timestamp
`datetime.now().strftime("%Y%m%d_%H%M%S")`, the elapsed seconds of the
remote call, and whether writing a given path succeeds. -/
structure World where
  fs : FileSystem
  svc : ApiRequest → ApiResponse
  cwd : String
  baseDir : String
  now : String
  elapsed : ℚ
  writeOk : String → Bool

/-- The path is absolute: it starts with `'/'`. -/
def isAbsolute (p : String) : Bool :=
  match p.data with
  | [] => false
  | c :: _ => c = '/'

/-- Embeds `Path(p).absolute()`: the path itself when absolute, else the current
directory joined with it (no normalisation, as in the source). -/
def absolutePath (cwd p : String) : String :=
  if isAbsolute p then p else cwd ++ "/" ++ p

/-- Characters of the final path component (`Path(p).name`). -/
def basenameAux : List Char → List Char → List Char
  | [], acc => acc.reverse
  | '/' :: rest, _ => basenameAux rest []
  | c :: rest, acc => basenameAux rest (c :: acc)

/-- Embeds `Path(p).name`: the final path component. -/
def basename (p : String) : String := String.mk (basenameAux p.data [])

/-- Index of the last `'.'` in a character list, if any. -/
def lastDotIdx : List Char → Option ℕ
  | [] => none
  | c :: rest =>
    match lastDotIdx rest with
    | some j => some (j + 1)
    | none => if c = '.' then some 0 else none

/-- Embeds `Path(p).stem`: the final component without its suffix.  As in
`pathlib`, the last dot only counts when it is neither the first nor the
last character of the name. -/
def stem (p : String) : String :=
  let n := (basename p).data
  match lastDotIdx n with
  | some i => if 0 < i ∧ i + 1 < n.length then String.mk (n.take i) else String.mk n
  | none => String.mk n

/-- The decimal digit character for `d < 10`. -/
def digitChar (d : ℕ) : Char := Char.ofNat (48 + d)

/-- Decimal digits of a natural number, most significant first; the fuel
argument makes the recursion structural (any fuel above the digit count
gives the same result). -/
def natReprAux : ℕ → ℕ → List Char
  | 0, _ => []
  | fuel + 1, n =>
    if n < 10 then [digitChar n]
    else natReprAux fuel (n / 10) ++ [digitChar (n % 10)]

/-- Decimal rendering of a natural number. -/
def natRepr (n : ℕ) : List Char := natReprAux (n + 1) n

/-- Modelled rendering of a Python float held as an exact rational:
sign, numerator, and (when not integral) a slash and the denominator.
CPython prints the shortest round-tripping decimal instead; the proofs
below depend only on this rendering containing no JSON delimiter, which
both renderings satisfy. -/
def ratRepr (q : ℚ) : List Char :=
  (if q < 0 then ['-'] else [])
    ++ natRepr q.num.natAbs
    ++ (if q.den = 1 then [] else '/' :: natRepr q.den)

/-- Modelled rendering of Python's `"{:.1f}"` format: one digit after the
decimal point (rounding half up instead of CPython's half-to-even; no
claim depends on the digits). -/
def fixed1Repr (q : ℚ) : List Char :=
  let m : ℤ := ⌊q * 10 + 1/2⌋
  (if m < 0 then ['-'] else [])
    ++ natRepr (m.natAbs / 10) ++ '.' :: natRepr (m.natAbs % 10)

/-- Lower-case hexadecimal digit character for `d < 16`. -/
def hexDigit (d : ℕ) : Char :=
  if d < 10 then Char.ofNat (48 + d) else Char.ofNat (87 + d)

/-- Numeric value of a hexadecimal digit character. -/
def hexVal (c : Char) : Option ℕ :=
  if 48 ≤ c.toNat ∧ c.toNat ≤ 57 then some (c.toNat - 48)
  else if 97 ≤ c.toNat ∧ c.toNat ≤ 102 then some (c.toNat - 87)
  else if 65 ≤ c.toNat ∧ c.toNat ≤ 70 then some (c.toNat - 55)
  else none

/-- JSON escaping of one character, as `json.dump(..., ensure_ascii=False)`
performs it: backslash, quote and the five named control characters get a
two-character escape, the remaining control characters below 0x20 get a
`\u00XX` escape, and every other character (non-ASCII included) is kept
verbatim. -/
def escChar (c : Char) : List Char :=
  if c = '\\' then ['\\', '\\']
  else if c = '"' then ['\\', '"']
  else if c = '\n' then ['\\', 'n']
  else if c = '\r' then ['\\', 'r']
  else if c = '\t' then ['\\', 't']
  else if c = Char.ofNat 8 then ['\\', 'b']
  else if c = Char.ofNat 12 then ['\\', 'f']
  else if c.toNat < 32 then
    ['\\', 'u', '0', '0', hexDigit (c.toNat / 16), hexDigit (c.toNat % 16)]
  else [c]

/-- JSON escaping of a whole string body. -/
def escape (s : List Char) : List Char := s.flatMap escChar

/-- A JSON string literal: quote, escaped body, quote. -/
def jsonStr (s : List Char) : List Char := '"' :: escape s ++ ['"']

/-- The single-character JSON escapes accepted by `json.loads`. -/
def escCode (c : Char) : Option Char :=
  if c = '"' then some '"'
  else if c = '\\' then some '\\'
  else if c = '/' then some '/'
  else if c = 'n' then some '\n'
  else if c = 'r' then some '\r'
  else if c = 't' then some '\t'
  else if c = 'b' then some (Char.ofNat 8)
  else if c = 'f' then some (Char.ofNat 12)
  else none

/-- Prepend a character to the parsed part of a parser result. -/
def consCh (c : Char) : List Char × List Char → List Char × List Char :=
  fun p => (c :: p.1, p.2)

/-- Parse the body of a JSON string literal after its opening quote, as
`json.loads` does: stop at an unescaped quote, decode the single-character
escapes and `\uXXXX`; return the decoded body and the rest of the input. -/
def unescBody : List Char → Option (List Char × List Char)
  | [] => none
  | c :: rest =>
    if c = '"' then some ([], rest)
    else if c = '\\' then
      match rest with
      | [] => none
      | e :: rest1 =>
        if e = 'u' then
          match rest1 with
          | h1 :: h2 :: h3 :: h4 :: rest4 =>
            match hexVal h1, hexVal h2, hexVal h3, hexVal h4 with
            | some a, some b, some d1, some d2 =>
              (unescBody rest4).map
                (consCh (Char.ofNat (((a * 16 + b) * 16 + d1) * 16 + d2)))
            | _, _, _, _ => none
          | _ => none
        else
          match escCode e with
          | some ec => (unescBody rest1).map (consCh ec)
          | none => none
    else (unescBody rest).map (consCh c)

/-- Parse a whole JSON string literal, opening quote included. -/
def parseJsonString : List Char → Option (List Char × List Char)
  | '"' :: rest => unescBody rest
  | _ => none

/-- Consume an expected literal from the front of the input. -/
def expectLit : List Char → List Char → Option (List Char)
  | [], l => some l
  | p :: ps, c :: cs => if c = p then expectLit ps cs else none
  | _ :: _, [] => none

/-- The fields of the record passed to `json.dump` in `save_results`
(lines 191-198 of the source). -/
structure SavePayload where
  video : String
  model : String
  fps : ℚ
  processingTime : ℚ
  timestamp : String
  annotationText : String

/-- The text produced by `json.dump(record, f, ensure_ascii=False, indent=2)`
on the record of `save_results`: a two-space-indented object with the six
keys in insertion order. -/
def jsonContent (r : SavePayload) : List Char :=
  "\x7b\n  \"video\": ".data ++ jsonStr r.video.data
    ++ ",\n  \"model\": ".data ++ jsonStr r.model.data
    ++ ",\n  \"fps\": ".data ++ ratRepr r.fps
    ++ ",\n  \"processing_time\": ".data ++ ratRepr r.processingTime
    ++ ",\n  \"timestamp\": ".data ++ jsonStr r.timestamp.data
    ++ ",\n  \"annotation\": ".data ++ jsonStr r.annotationText.data
    ++ "\n\x7d".data

/-- Re-parsing the produced JSON file, as `json.loads` reads it back:
consume the object skeleton key by key, decode each string literal, skip
the two number values, and return the decoded value of the
`"annotation"` key. -/
def parseAnnotationField (l : List Char) : Option (List Char) :=
  (expectLit "\x7b\n  \"video\": ".data l).bind fun l1 =>
  (parseJsonString l1).bind fun p1 =>
  (expectLit ",\n  \"model\": ".data p1.2).bind fun l2 =>
  (parseJsonString l2).bind fun p2 =>
  (expectLit ",\n  \"fps\": ".data p2.2).bind fun l3 =>
  (expectLit ",\n  \"processing_time\": ".data (l3.dropWhile (· != ','))).bind fun l4 =>
  (expectLit ",\n  \"timestamp\": ".data (l4.dropWhile (· != ','))).bind fun l5 =>
  (parseJsonString l5).bind fun p3 =>
  (expectLit ",\n  \"annotation\": ".data p3.2).bind fun l6 =>
  (parseJsonString l6).bind fun p4 =>
  if p4.2 = "\n\x7d".data then some p4.1 else none

/-- The result dictionary returned by `annotate_video` on success
(lines 168-173 of the source). -/
structure AnnotationResult where
  content : String
  processingTime : ℚ
  model : String
  fps : ℚ
deriving DecidableEq

/-- The hardcoded fallback instruction of `load_prompt` (line 81). -/
def fallbackPrompt : String :=
  "Проанализируй это видео и опиши действия, которые происходят в нём."

/-- Embeds `VideoAnnotator.load_prompt` (lines 70-86): resolve the default path
when none is given, return the fallback string when the file is missing,
otherwise the file's full decoded content. -/
def loadPrompt (fs : FileSystem) (baseDir : String) (promptPath : Option String) : String :=
  let p := promptPath.getD (baseDir ++ "/prompts/pov_annotation_prompt.txt")
  match fs.read p with
  | none => fallbackPrompt
  | some content => content

/-- The outcome of `annotate_video`: its return value or raised exception,
together with the list of remote calls it performed. -/
structure CallTrace where
  result : Except PyError AnnotationResult
  networkCalls : List ApiRequest

/-- Embeds `VideoAnnotator.annotate_video` (lines 88-178): raise
`FileNotFoundError` when the video is missing (before any remote call);
otherwise build the single-user-message payload with one video block
(`file://` + absolute path, with the configured fps) followed by one text
block, call the service once, and either raise the generic exception of
line 160 (on a non-200 status, embedding `response.message`) or return the
result record. -/
def annotateVideo (w : World) (cfg : Config) (videoPath : String)
    (promptText : Option String) : CallTrace :=
  if w.fs.existsFile videoPath = true then
    let prompt := promptText.getD (loadPrompt w.fs w.baseDir none)
    let videoUrl := "file://" ++ absolutePath w.cwd videoPath
    let req : ApiRequest :=
      { model := cfg.model
        messages := [{ role := "user"
                       content := [.video videoUrl cfg.fps, .text prompt] }]
        temperature := cfg.temperature
        maxTokens := cfg.maxTokens
        topP := 9/10 }
    let resp := w.svc req
    if resp.statusCode ≠ 200 then
      { result := .error (.exception ("Ошибка API: " ++ resp.message))
        networkCalls := [req] }
    else
      { result := .ok { content := resp.content, processingTime := w.elapsed
                        model := cfg.model, fps := cfg.fps }
        networkCalls := [req] }
  else
    { result := .error (.fileNotFound ("Видео не найдено: " ++ videoPath))
      networkCalls := [] }

/-- The JSON text `save_results` writes for a given video name, result and
timestamp. -/
def savedJsonContent (videoName : String) (r : AnnotationResult)
    (timestamp : String) : List Char :=
  jsonContent { video := videoName, model := r.model, fps := r.fps
                processingTime := r.processingTime, timestamp := timestamp
                annotationText := r.content }

/-- The plain-text file `save_results` writes (lines 206-213): labelled
header lines followed by the annotation body. -/
def savedTxtContent (videoName : String) (r : AnnotationResult)
    (timestamp : String) : List Char :=
  ("=== Аннотация видео: " ++ videoName ++ " ===\n").data
    ++ ("Модель: " ++ r.model ++ "\n").data
    ++ "FPS: ".data ++ ratRepr r.fps ++ "\n".data
    ++ "Время обработки: ".data ++ fixed1Repr r.processingTime ++ " сек\n".data
    ++ ("Дата: " ++ timestamp ++ "\n").data
    ++ "\n--- Аннотация ---\n".data
    ++ r.content.data

/-- The outcome of `save_results`: the two derived paths it returns, the
files actually written, and the persistence errors it logged. -/
structure SaveOutcome where
  jsonPath : String
  txtPath : String
  written : List (String × String)
  logErrors : List String
deriving DecidableEq

/-- Embeds `VideoAnnotator.save_results` (lines 180-222): derive the shared
timestamped stem, attempt the JSON write and the TXT write each under its
own exception handler that only logs a failure, and return the two paths
unconditionally.  The OS-error text of a failed write is abstracted away;
only the per-format log line is modelled. -/
def saveResults (w : World) (videoName : String) (r : AnnotationResult) : SaveOutcome :=
  let timestamp := w.now
  let baseName := stem videoName ++ "_" ++ timestamp
  let jsonPath := w.baseDir ++ "/outputs/" ++ baseName ++ ".json"
  let txtPath := w.baseDir ++ "/outputs/" ++ baseName ++ ".txt"
  let jsonWrite :=
    if w.writeOk jsonPath then ([(jsonPath, String.mk (savedJsonContent videoName r timestamp))], [])
    else ([], ["Ошибка сохранения JSON"])
  let txtWrite :=
    if w.writeOk txtPath then ([(txtPath, String.mk (savedTxtContent videoName r timestamp))], [])
    else ([], ["Ошибка сохранения TXT"])
  { jsonPath := jsonPath, txtPath := txtPath
    written := jsonWrite.1 ++ txtWrite.1
    logErrors := jsonWrite.2 ++ txtWrite.2 }

/-- The parsed command-line arguments (lines 226-233). -/
structure Args where
  video : String
  prompt : Option String
  fps : Option ℚ
  model : Option String
  temperature : Option ℚ

/-- Lines 244-252 of `main`: each override is applied only when the parsed
value is truthy in the Python sense (`if args.fps:` etc.), so a present
but zero float — or an empty model string — is ignored. -/
def applyOverrides (cfg : Config) (args : Args) : Config :=
  let cfg1 :=
    match args.fps with
    | some v => if v ≠ 0 then { cfg with fps := v } else cfg
    | none => cfg
  let cfg2 :=
    match args.model with
    | some m => if m ≠ "" then { cfg1 with model := m } else cfg1
    | none => cfg1
  match args.temperature with
  | some t => if t ≠ 0 then { cfg2 with temperature := t } else cfg2
  | none => cfg2

/-- How a failure reaches the console: the `except` block of `main`
printing `\n❌ Ошибка: {e}` before `sys.exit(1)`, or an exception raised
outside the `try` block, which the interpreter reports as a traceback and
a nonzero exit. -/
inductive Surfaced where
  | handled (msg : String)
  | uncaught (e : PyError)
  | ok
deriving DecidableEq

/-- The console text a surfaced failure shows the user (for an uncaught
exception, the error text on the traceback's last line). -/
def Surfaced.consoleText : Surfaced → Option String
  | .handled m => some m
  | .uncaught e => some (pyErrorText e)
  | .ok => none

/-- The observable outcome of one run of the script. -/
structure MainOutcome where
  exitCode : ℕ
  written : List (String × String)
  networkCalls : List ApiRequest
  logErrors : List String
  surfaced : Surfaced
deriving DecidableEq

/-- The `try` block of `main` (lines 261-281): annotate, save, and on any
exception log it, print the short failure message and exit 1. -/
def mainTry (w : World) (cfg : Config) (args : Args) (prompt : Option String) : MainOutcome :=
  let t := annotateVideo w cfg args.video prompt
  match t.result with
  | .error e =>
    { exitCode := 1, written := [], networkCalls := t.networkCalls
      logErrors := [], surfaced := .handled ("\n❌ Ошибка: " ++ pyErrorText e) }
  | .ok r =>
    let s := saveResults w (basename args.video) r
    { exitCode := 0, written := s.written, networkCalls := t.networkCalls
      logErrors := s.logErrors, surfaced := .ok }

/-- Embeds `main` (lines 225-281): apply the CLI overrides, then — outside
the `try` block — open the `--prompt` file when the parsed value is truthy
(`if args.prompt:` at line 256, falsy for both `None` and the empty
string, which leave the default prompt in place); a missing file in that
open is an uncaught `FileNotFoundError` (traceback and interpreter exit
code 1); finally run the annotate/save chain under the exception
handler. -/
def main (w : World) (args : Args) : MainOutcome :=
  let cfg := applyOverrides initConfig args
  match args.prompt with
  | some pp =>
    if pp ≠ "" then
      match w.fs.read pp with
      | none =>
        { exitCode := 1, written := [], networkCalls := [], logErrors := []
          surfaced := .uncaught (.fileNotFound
            ("[Errno 2] No such file or directory: '" ++ pp ++ "'")) }
      | some promptText => mainTry w cfg args (some promptText)
    else mainTry w cfg args none
  | none => mainTry w cfg args none

/-- Resolving a `file://` reference back to a local path: strip the
scheme, fail on any other reference. -/
def urlToPath (u : String) : Option String :=
  if "file://".data.isPrefixOf u.data then some (String.mk (u.data.drop 7)) else none

/-- A concrete file system used to instantiate the theorems: one video
file and one readable prompt file. -/
def testFs : FileSystem :=
  ⟨[("/videos/clip.mp4", "MP4DATA"), ("prompt.txt", "Опиши видео подробно.")]⟩

/-- A concrete world: the remote service accepts every request. -/
def testWorld : World :=
  { fs := testFs
    svc := fun _ => { statusCode := 200, message := "", content := "Человек идёт по улице." }
    cwd := "/cwd"
    baseDir := "/app"
    now := "20240101_120000"
    elapsed := 2
    writeOk := fun _ => true }

/-- Concrete command-line arguments naming the test video, no overrides. -/
def testArgs : Args :=
  { video := "/videos/clip.mp4", prompt := none, fps := none, model := none,
    temperature := none }

/-! ## Helper lemmas -/

theorem expectLit_append (p l : List Char) : expectLit p (p ++ l) = some l := by
  induction p with
  | nil => rfl
  | cons c ps ih => simp [expectLit, ih]

theorem hexVal_hexDigit (d : ℕ) (h : d < 16) : hexVal (hexDigit d) = some d := by
  interval_cases d <;> decide

theorem unescBody_quote (rest : List Char) :
    unescBody ('"' :: rest) = some ([], rest) := by
  conv_lhs => rw [unescBody.eq_def]
  rfl

theorem unescBody_plain (c : Char) (rest : List Char) (h1 : c ≠ '"') (h2 : c ≠ '\\') :
    unescBody (c :: rest) = (unescBody rest).map (consCh c) := by
  conv_lhs => rw [unescBody.eq_def]
  simp [h1, h2]

theorem unescBody_esc (e ec : Char) (rest : List Char) (hu : e ≠ 'u')
    (hec : escCode e = some ec) :
    unescBody ('\\' :: e :: rest) = (unescBody rest).map (consCh ec) := by
  conv_lhs => rw [unescBody.eq_def]
  simp [hu, hec]

theorem unescBody_u (h1 h2 h3 h4 : Char) (a b d1 d2 : ℕ) (rest : List Char)
    (e1 : hexVal h1 = some a) (e2 : hexVal h2 = some b)
    (e3 : hexVal h3 = some d1) (e4 : hexVal h4 = some d2) :
    unescBody ('\\' :: 'u' :: h1 :: h2 :: h3 :: h4 :: rest)
      = (unescBody rest).map (consCh (Char.ofNat (((a * 16 + b) * 16 + d1) * 16 + d2))) := by
  conv_lhs => rw [unescBody.eq_def]
  simp [e1, e2, e3, e4]

theorem unescBody_escape (s rest : List Char) :
    unescBody (escape s ++ '"' :: rest) = some (s, rest) := by
  induction s with
  | nil => simpa [escape] using unescBody_quote rest
  | cons c cs ih =>
    have hesc : escape (c :: cs) ++ '"' :: rest = escChar c ++ (escape cs ++ '"' :: rest) := by
      simp [escape]
    rw [hesc]
    by_cases h1 : c = '\\'
    · subst h1
      rw [show escChar '\\' = ['\\', '\\'] from rfl]
      rw [List.cons_append, List.cons_append,
        unescBody_esc '\\' '\\' _ (by decide) (by decide), List.nil_append, ih]
      rfl
    · by_cases h2 : c = '"'
      · subst h2
        rw [show escChar '"' = ['\\', '"'] from rfl]
        rw [List.cons_append, List.cons_append,
          unescBody_esc '"' '"' _ (by decide) (by decide), List.nil_append, ih]
        rfl
      · by_cases h3 : c = '\n'
        · subst h3
          rw [show escChar '\n' = ['\\', 'n'] from rfl]
          rw [List.cons_append, List.cons_append,
            unescBody_esc 'n' '\n' _ (by decide) (by decide), List.nil_append, ih]
          rfl
        · by_cases h4 : c = '\r'
          · subst h4
            rw [show escChar '\r' = ['\\', 'r'] from rfl]
            rw [List.cons_append, List.cons_append,
              unescBody_esc 'r' '\r' _ (by decide) (by decide), List.nil_append, ih]
            rfl
          · by_cases h5 : c = '\t'
            · subst h5
              rw [show escChar '\t' = ['\\', 't'] from rfl]
              rw [List.cons_append, List.cons_append,
                unescBody_esc 't' '\t' _ (by decide) (by decide), List.nil_append, ih]
              rfl
            · by_cases h6 : c = Char.ofNat 8
              · subst h6
                rw [show escChar (Char.ofNat 8) = ['\\', 'b'] from rfl]
                rw [List.cons_append, List.cons_append,
                  unescBody_esc 'b' (Char.ofNat 8) _ (by decide) (by decide), List.nil_append, ih]
                rfl
              · by_cases h7 : c = Char.ofNat 12
                · subst h7
                  rw [show escChar (Char.ofNat 12) = ['\\', 'f'] from rfl]
                  rw [List.cons_append, List.cons_append,
                    unescBody_esc 'f' (Char.ofNat 12) _ (by decide) (by decide), List.nil_append, ih]
                  rfl
                · by_cases h8 : c.toNat < 32
                  · have hdiv : c.toNat / 16 < 16 := by omega
                    have hmod : c.toNat % 16 < 16 := by omega
                    have hch : escChar c
                        = ['\\', 'u', '0', '0', hexDigit (c.toNat / 16), hexDigit (c.toNat % 16)] := by
                      simp only [escChar, if_neg h1, if_neg h2, if_neg h3, if_neg h4,
                        if_neg h5, if_neg h6, if_neg h7, if_pos h8]
                    rw [hch]
                    simp only [List.cons_append]
                    rw [unescBody_u '0' '0' (hexDigit (c.toNat / 16)) (hexDigit (c.toNat % 16))
                      0 0 (c.toNat / 16) (c.toNat % 16) _ (by decide) (by decide)
                      (hexVal_hexDigit _ hdiv) (hexVal_hexDigit _ hmod), List.nil_append, ih]
                    have hval : ((0 * 16 + 0) * 16 + c.toNat / 16) * 16 + c.toNat % 16
                        = c.toNat := by omega
                    rw [hval]
                    simp [consCh, Char.ofNat_toNat]
                  · have hch : escChar c = [c] := by
                      simp only [escChar, if_neg h1, if_neg h2, if_neg h3, if_neg h4,
                        if_neg h5, if_neg h6, if_neg h7, if_neg h8]
                    rw [hch, List.cons_append, List.nil_append,
                      unescBody_plain c _ h2 h1, ih]
                    rfl

theorem parseJsonString_jsonStr (s rest : List Char) :
    parseJsonString (jsonStr s ++ rest) = some (s, rest) := by
  have : jsonStr s ++ rest = '"' :: (escape s ++ '"' :: rest) := by
    simp [jsonStr]
  rw [this, parseJsonString, unescBody_escape]

theorem mem_natReprAux_digit (fuel n : ℕ) (c : Char) (hc : c ∈ natReprAux fuel n) :
    ∃ d, d < 10 ∧ c = digitChar d := by
  induction fuel generalizing n with
  | zero => simp [natReprAux] at hc
  | succ fuel ih =>
    rw [natReprAux] at hc
    by_cases h : n < 10
    · rw [if_pos h] at hc
      simp at hc
      exact ⟨n, h, hc⟩
    · rw [if_neg h] at hc
      rcases List.mem_append.1 hc with h1 | h2
      · exact ih _ h1
      · simp at h2
        exact ⟨n % 10, Nat.mod_lt _ (by omega), h2⟩

theorem comma_ne_digitChar (d : ℕ) (h : d < 10) : ',' ≠ digitChar d := by
  interval_cases d <;> decide

theorem comma_not_mem_natRepr (n : ℕ) : ',' ∉ natRepr n := by
  intro hc
  obtain ⟨d, hd, he⟩ := mem_natReprAux_digit _ _ _ hc
  exact comma_ne_digitChar d hd he

theorem comma_not_mem_ratRepr (q : ℚ) : ',' ∉ ratRepr q := by
  intro hc
  rw [ratRepr] at hc
  rcases List.mem_append.1 hc with h1 | h2
  · rcases List.mem_append.1 h1 with h3 | h4
    · by_cases hq : q < 0
      · rw [if_pos hq] at h3; simp at h3
      · rw [if_neg hq] at h3; simp at h3
    · exact comma_not_mem_natRepr _ h4
  · by_cases hq : q.den = 1
    · rw [if_pos hq] at h2; simp at h2
    · rw [if_neg hq] at h2
      rcases List.mem_cons.1 h2 with h3 | h4
      · exact absurd h3 (by decide)
      · exact comma_not_mem_natRepr _ h4

theorem dropWhile_comma (v : List Char) (hv : ',' ∉ v) (r : List Char) :
    (v ++ ',' :: r).dropWhile (· != ',') = ',' :: r := by
  induction v with
  | nil => simp [List.dropWhile]
  | cons c cs ih =>
    have hc : c ≠ ',' := fun h => hv (h ▸ List.mem_cons_self c cs)
    have hb : (c != ',') = true := by simpa using hc
    simp only [List.cons_append, List.dropWhile_cons, hb, if_true]
    exact ih (fun h => hv (List.mem_cons_of_mem _ h))

theorem expectLit_cons (c : Char) (p l : List Char) :
    expectLit (c :: p) (c :: l) = expectLit p l := by
  simp [expectLit]

theorem expectLit_nil (l : List Char) : expectLit [] l = some l := rfl

theorem parseAnnotationField_jsonContent (r : SavePayload) :
    parseAnnotationField (jsonContent r) = some r.annotationText.data := by
  simp only [parseAnnotationField, jsonContent, List.append_assoc, List.cons_append,
    List.nil_append, expectLit_cons, expectLit_nil, parseJsonString_jsonStr,
    Option.some_bind, dropWhile_comma _ (comma_not_mem_ratRepr r.fps),
    dropWhile_comma _ (comma_not_mem_ratRepr r.processingTime)]
  simp

theorem urlToPath_fileUrl (s : String) : urlToPath ("file://" ++ s) = some s := by
  cases s with
  | mk d =>
    have hdata : ("file://" ++ String.mk d).data = "file://".data ++ d := rfl
    rw [urlToPath, hdata]
    rw [if_pos (by simp)]
    rw [List.drop_left' (by rfl)]

/-! ## Claims -/

/-- C9: a CLI override whose parsed value is falsy is treated as unset:
`--fps 0` and `--temperature 0.0` leave the process-wide defaults in place
(fps 1, temperature 3/10), while a truthy value such as `--fps 2` is
applied, because `main` applies an override only when the parsed value is
truthy. -/
theorem C9_zero_override_ignored :
    applyOverrides initConfig
        { video := "clip.mp4", prompt := none, fps := some 0, model := none,
          temperature := some 0 } = initConfig
    ∧ initConfig.fps = 1 ∧ initConfig.temperature = 3/10
    ∧ (applyOverrides initConfig
        { video := "clip.mp4", prompt := none, fps := some 2, model := none,
          temperature := none }).fps = 2 := by
  refine ⟨?_, rfl, rfl, ?_⟩
  · simp [applyOverrides]
  · norm_num [applyOverrides]

/-- C10: `save_results` always returns the derived `.json` and `.txt`
paths in the outputs directory, for every world — in particular for one
where every write fails and nothing is written — so a returned path does
not imply the corresponding file exists. -/
theorem C10_save_always_returns_paths (w : World) (videoName : String) (r : AnnotationResult) :
    (saveResults w videoName r).jsonPath
        = w.baseDir ++ "/outputs/" ++ (stem videoName ++ "_" ++ w.now) ++ ".json"
    ∧ (saveResults w videoName r).txtPath
        = w.baseDir ++ "/outputs/" ++ (stem videoName ++ "_" ++ w.now) ++ ".txt"
    ∧ (saveResults { w with writeOk := fun _ => false } videoName r).jsonPath
        = w.baseDir ++ "/outputs/" ++ (stem videoName ++ "_" ++ w.now) ++ ".json"
    ∧ (saveResults { w with writeOk := fun _ => false } videoName r).txtPath
        = w.baseDir ++ "/outputs/" ++ (stem videoName ++ "_" ++ w.now) ++ ".txt"
    ∧ (saveResults { w with writeOk := fun _ => false } videoName r).written = [] := by
  refine ⟨rfl, rfl, rfl, rfl, ?_⟩
  simp [saveResults]

/-- C3 counterexample: a prompt file that exists and whose content is
exactly the fallback string makes `load_prompt` return the fallback even
though the target file exists, refuting the claim's "only if" direction. -/
theorem C3_counterexample :
    loadPrompt ⟨[("p.txt", fallbackPrompt)]⟩ "base" (some "p.txt") = fallbackPrompt
    ∧ FileSystem.existsFile ⟨[("p.txt", fallbackPrompt)]⟩ "p.txt" = true :=
  ⟨rfl, rfl⟩

/-- C3 (amended): `load_prompt` returns the fallback string when the
target file does not exist, and the file's exact content when it does —
so it returns the fallback on an existing file exactly when that file's
content coincides with the fallback — and it never fails. -/
theorem C3_load_prompt_amended (fs : FileSystem) (baseDir : String) (pp : Option String) :
    (fs.read (pp.getD (baseDir ++ "/prompts/pov_annotation_prompt.txt")) = none →
      loadPrompt fs baseDir pp = fallbackPrompt)
    ∧ ∀ c, fs.read (pp.getD (baseDir ++ "/prompts/pov_annotation_prompt.txt")) = some c →
      loadPrompt fs baseDir pp = c := by
  constructor
  · intro h; simp [loadPrompt, h]
  · intro c h; simp [loadPrompt, h]

/-- C3 witness: the amended statement at two concrete file systems. -/
theorem C3_load_prompt_amended_witness :
    loadPrompt ⟨[]⟩ "b" none = fallbackPrompt
    ∧ loadPrompt ⟨[("f.txt", "привет")]⟩ "b" (some "f.txt") = "привет" :=
  ⟨(C3_load_prompt_amended ⟨[]⟩ "b" none).1 rfl,
   (C3_load_prompt_amended ⟨[("f.txt", "привет")]⟩ "b" (some "f.txt")).2 "привет" rfl⟩

/-- C2: for every world and arguments whose video path does not exist,
`annotate_video` raises `FileNotFoundError` without performing any
network call, and the driver exits with status 1 having created no output
files. -/
theorem C2_missing_video (w : World) (args : Args) (cfg : Config) (p : Option String)
    (hv : w.fs.existsFile args.video = false) :
    (annotateVideo w cfg args.video p).result
        = .error (.fileNotFound ("Видео не найдено: " ++ args.video))
    ∧ (annotateVideo w cfg args.video p).networkCalls = []
    ∧ (main w args).exitCode = 1
    ∧ (main w args).written = []
    ∧ (main w args).networkCalls = [] := by
  have key : ∀ (cfg' : Config) (q : Option String),
      annotateVideo w cfg' args.video q
        = { result := .error (.fileNotFound ("Видео не найдено: " ++ args.video)),
            networkCalls := [] } := by
    intro cfg' q
    simp [annotateVideo, hv]
  obtain ⟨v, pr, f, m, t⟩ := args
  refine ⟨by simp [key], by simp [key], ?_⟩
  cases pr with
  | none => simp [main, mainTry, key]
  | some pp =>
    by_cases hpp : pp = ""
    · simp [main, hpp, mainTry, key]
    · cases hr : w.fs.read pp with
      | none => simp [main, hpp, hr]
      | some c => simp [main, hpp, hr, mainTry, key]

/-- C2 witness: the statement at a concrete world with no files. -/
theorem C2_missing_video_witness :
    FileSystem.existsFile ⟨[]⟩ "lost.mp4" = false
    ∧ (main { testWorld with fs := ⟨[]⟩ } { testArgs with video := "lost.mp4" }).exitCode = 1
    ∧ (main { testWorld with fs := ⟨[]⟩ } { testArgs with video := "lost.mp4" }).written = []
    ∧ (main { testWorld with fs := ⟨[]⟩ } { testArgs with video := "lost.mp4" }).networkCalls
        = [] := by
  have h := C2_missing_video { testWorld with fs := ⟨[]⟩ }
    { testArgs with video := "lost.mp4" } initConfig none rfl
  exact ⟨rfl, h.2.2.1, h.2.2.2.1, h.2.2.2.2⟩

/-- C7 counterexample: the `--prompt` override can supply the empty
string, a path that does not exist; line 256's truthiness check
`if args.prompt:` is then false, so the run skips the open, proceeds with
the default prompt, and exits 0 with no surfaced failure — the claim's
abort does not happen. -/
theorem C7_counterexample :
    ({ testArgs with prompt := some "" } : Args).prompt = some ""
    ∧ testWorld.fs.read "" = none
    ∧ (main testWorld { testArgs with prompt := some "" }).exitCode = 0
    ∧ (main testWorld { testArgs with prompt := some "" }).surfaced = .ok :=
  ⟨rfl, rfl, rfl, rfl⟩

/-- C7 (amended): when the `--prompt` override supplies a non-empty path
whose file does not exist, the run aborts (the open happens outside the
`try` block, so the `FileNotFoundError` escapes as an uncaught
exception), the failure reaches the console, the exit status is 1, and no
output files or remote calls are made; an empty-string override is falsy
at line 256 and is treated as unset. -/
theorem C7_missing_prompt_override (w : World) (args : Args) (pp : String)
    (hp : args.prompt = some pp) (hne : pp ≠ "") (hr : w.fs.read pp = none) :
    (main w args).exitCode = 1
    ∧ (main w args).written = []
    ∧ (main w args).surfaced.consoleText
        = some ("[Errno 2] No such file or directory: '" ++ pp ++ "'")
    ∧ (main w args).networkCalls = [] := by
  obtain ⟨v, pr, f, m, t⟩ := args
  cases hp
  simp [main, hne, hr, Surfaced.consoleText, pyErrorText]

/-- C7 witness: the statement at a concrete world whose file system lacks
the overridden prompt path. -/
theorem C7_missing_prompt_override_witness :
    (main testWorld { testArgs with prompt := some "nope.txt" }).exitCode = 1
    ∧ (main testWorld { testArgs with prompt := some "nope.txt" }).written = []
    ∧ (main testWorld { testArgs with prompt := some "nope.txt" }).surfaced.consoleText
        = some "[Errno 2] No such file or directory: 'nope.txt'"
    ∧ (main testWorld { testArgs with prompt := some "nope.txt" }).networkCalls = [] :=
  C7_missing_prompt_override testWorld { testArgs with prompt := some "nope.txt" }
    "nope.txt" rfl (by decide) rfl

/-- C1 counterexample: the claim says the error embeds both the
service-provided status code and message.  At a concrete input the whole
observable outcome for status 400 equals the outcome for status 500 with
the same message — so the error cannot embed the code — and the surfaced
error text does not contain the digits of the status code, only the
message. -/
theorem C1_counterexample :
    main { testWorld with svc := fun _ => { statusCode := 400, message := "boom", content := "" } }
        testArgs
      = main { testWorld with svc := fun _ => { statusCode := 500, message := "boom", content := "" } }
        testArgs
    ∧ (main { testWorld with svc := fun _ => { statusCode := 400, message := "boom", content := "" } }
        testArgs).surfaced
      = .handled ("\n❌ Ошибка: " ++ ("Ошибка API: " ++ "boom"))
    ∧ (main { testWorld with svc := fun _ => { statusCode := 400, message := "boom", content := "" } }
        testArgs).exitCode = 1
    ∧ ¬ List.IsInfix "400".data ("\n❌ Ошибка: " ++ ("Ошибка API: " ++ "boom")).data := by
  exact ⟨rfl, rfl, rfl, by decide⟩

/-- C1 (amended): when the remote service returns a non-success status,
`annotate_video` fails with the generic exception of line 160, whose text
embeds the service-provided message (the status code is only logged, not
embedded); the driver exits 1 and no output files are created. -/
theorem C1_remote_error (w : World) (args : Args) (code : ℕ) (msg content : String)
    (hv : w.fs.existsFile args.video = true) (hp : args.prompt = none)
    (hsvc : w.svc = fun _ => { statusCode := code, message := msg, content := content })
    (hcode : code ≠ 200) :
    (main w args).exitCode = 1
    ∧ (main w args).written = []
    ∧ (main w args).surfaced = .handled ("\n❌ Ошибка: " ++ ("Ошибка API: " ++ msg)) := by
  obtain ⟨v, pr, f, m, t⟩ := args
  cases hp
  simp [main, mainTry, annotateVideo, hv, hsvc, hcode, pyErrorText]

/-- C1 witness: the amended statement at a concrete world whose service
rejects every request with status 500 and message "boom". -/
theorem C1_remote_error_witness :
    FileSystem.existsFile testFs "/videos/clip.mp4" = true
    ∧ (500 : ℕ) ≠ 200
    ∧ (main { testWorld with svc := fun _ => { statusCode := 500, message := "boom", content := "" } }
        testArgs).exitCode = 1
    ∧ (main { testWorld with svc := fun _ => { statusCode := 500, message := "boom", content := "" } }
        testArgs).written = []
    ∧ (main { testWorld with svc := fun _ => { statusCode := 500, message := "boom", content := "" } }
        testArgs).surfaced = .handled ("\n❌ Ошибка: " ++ ("Ошибка API: " ++ "boom")) := by
  have h := C1_remote_error
    { testWorld with svc := fun _ => { statusCode := 500, message := "boom", content := "" } }
    testArgs 500 "boom" "" rfl rfl rfl (by decide)
  exact ⟨rfl, by decide, h.1, h.2.1, h.2.2⟩

/-- C6: for every existing video path, the request payload contains a
single user-authored message holding exactly one video block followed by
one text block, and the video block's `file://` reference resolves back
to the same absolute path of the input video. -/
theorem C6_request_payload (w : World) (cfg : Config) (videoPath : String) (p : Option String)
    (hv : w.fs.existsFile videoPath = true) :
    (annotateVideo w cfg videoPath p).networkCalls
      = [{ model := cfg.model
           messages := [{ role := "user"
                          content := [ContentBlock.video
                                        ("file://" ++ absolutePath w.cwd videoPath) cfg.fps,
                                      ContentBlock.text
                                        (p.getD (loadPrompt w.fs w.baseDir none))] }]
           temperature := cfg.temperature
           maxTokens := cfg.maxTokens
           topP := 9/10 }]
    ∧ urlToPath ("file://" ++ absolutePath w.cwd videoPath)
        = some (absolutePath w.cwd videoPath) := by
  refine ⟨?_, urlToPath_fileUrl _⟩
  simp only [annotateVideo, hv, if_true]
  split <;> rfl

/-- C6 witness: the payload shape at the concrete test world. -/
theorem C6_request_payload_witness :
    FileSystem.existsFile testFs "/videos/clip.mp4" = true
    ∧ (annotateVideo testWorld initConfig "/videos/clip.mp4" none).networkCalls
      = [{ model := initConfig.model
           messages := [{ role := "user"
                          content := [ContentBlock.video
                                        ("file://" ++ absolutePath testWorld.cwd "/videos/clip.mp4")
                                        initConfig.fps,
                                      ContentBlock.text
                                        ((none : Option String).getD
                                          (loadPrompt testWorld.fs testWorld.baseDir none))] }]
           temperature := initConfig.temperature
           maxTokens := initConfig.maxTokens
           topP := 9/10 }]
    ∧ urlToPath ("file://" ++ absolutePath testWorld.cwd "/videos/clip.mp4")
        = some (absolutePath testWorld.cwd "/videos/clip.mp4") := by
  have h := C6_request_payload testWorld initConfig "/videos/clip.mp4" none rfl
  exact ⟨rfl, h.1, h.2⟩

/-- C5: round-trip — for every video name, timestamp and result (any
annotation text, non-ASCII characters and embedded newlines included),
re-parsing the JSON document written by `save_results` yields the
original annotation text exactly. -/
theorem C5_json_roundtrip (videoName : String) (r : AnnotationResult) (timestamp : String) :
    parseAnnotationField (savedJsonContent videoName r timestamp) = some r.content.data :=
  parseAnnotationField_jsonContent _

/-- C8: when both writes succeed, `save_results` writes exactly two files,
`<stem>_<timestamp>.json` and `<stem>_<timestamp>.txt`, inside the outputs
directory, sharing the same base name and second-granularity timestamp;
the JSON document parses back to the annotation text and the text document
is the labelled header followed by the same annotation text. -/
theorem C8_save_two_files (w : World) (videoName : String) (r : AnnotationResult)
    (hj : w.writeOk (w.baseDir ++ "/outputs/" ++ (stem videoName ++ "_" ++ w.now) ++ ".json")
      = true)
    (ht : w.writeOk (w.baseDir ++ "/outputs/" ++ (stem videoName ++ "_" ++ w.now) ++ ".txt")
      = true) :
    (saveResults w videoName r).written
      = [(w.baseDir ++ "/outputs/" ++ (stem videoName ++ "_" ++ w.now) ++ ".json",
          String.mk (savedJsonContent videoName r w.now)),
         (w.baseDir ++ "/outputs/" ++ (stem videoName ++ "_" ++ w.now) ++ ".txt",
          String.mk (savedTxtContent videoName r w.now))]
    ∧ parseAnnotationField (savedJsonContent videoName r w.now) = some r.content.data
    ∧ savedTxtContent videoName r w.now
        = (("=== Аннотация видео: " ++ videoName ++ " ===\n").data
            ++ ("Модель: " ++ r.model ++ "\n").data
            ++ "FPS: ".data ++ ratRepr r.fps ++ "\n".data
            ++ "Время обработки: ".data ++ fixed1Repr r.processingTime ++ " сек\n".data
            ++ ("Дата: " ++ w.now ++ "\n").data)
          ++ "\n--- Аннотация ---\n".data ++ r.content.data := by
  refine ⟨?_, parseAnnotationField_jsonContent _, ?_⟩
  · simp [saveResults, hj, ht]
  · simp [savedTxtContent, List.append_assoc]

/-- C8 witness: the statement at the concrete test world, where every
write succeeds. -/
theorem C8_save_two_files_witness :
    testWorld.writeOk ("/app" ++ "/outputs/" ++ (stem "clip.mp4" ++ "_" ++ "20240101_120000")
      ++ ".json") = true
    ∧ (saveResults testWorld "clip.mp4"
        { content := "Человек идёт по улице.", processingTime := 2,
          model := MODEL, fps := 1 }).written
      = [(testWorld.baseDir ++ "/outputs/" ++ (stem "clip.mp4" ++ "_" ++ testWorld.now)
            ++ ".json",
          String.mk (savedJsonContent "clip.mp4"
            { content := "Человек идёт по улице.", processingTime := 2,
              model := MODEL, fps := 1 } testWorld.now)),
         (testWorld.baseDir ++ "/outputs/" ++ (stem "clip.mp4" ++ "_" ++ testWorld.now)
            ++ ".txt",
          String.mk (savedTxtContent "clip.mp4"
            { content := "Человек идёт по улице.", processingTime := 2,
              model := MODEL, fps := 1 } testWorld.now))]
    ∧ parseAnnotationField (savedJsonContent "clip.mp4"
        { content := "Человек идёт по улице.", processingTime := 2,
          model := MODEL, fps := 1 } testWorld.now)
      = some "Человек идёт по улице.".data := by
  have h := C8_save_two_files testWorld "clip.mp4"
    { content := "Человек идёт по улице.", processingTime := 2, model := MODEL, fps := 1 }
    rfl rfl
  exact ⟨rfl, h.1, h.2.1⟩

/-- C4: the JSON write and the TXT write of `save_results` are
independent: whether each file is written and whether each per-format
persistence error is logged depends only on that format's own write
permission, and the run still exits with status 0 whatever combination of
the two writes fails. -/
theorem C4_write_failures_independent (w : World) (args : Args) (content : String)
    (bj bt : Bool)
    (hv : w.fs.existsFile args.video = true) (hp : args.prompt = none)
    (hsvc : w.svc = fun _ => { statusCode := 200, message := "", content := content })
    (hj : w.writeOk (w.baseDir ++ "/outputs/"
        ++ (stem (basename args.video) ++ "_" ++ w.now) ++ ".json") = bj)
    (ht : w.writeOk (w.baseDir ++ "/outputs/"
        ++ (stem (basename args.video) ++ "_" ++ w.now) ++ ".txt") = bt) :
    (main w args).exitCode = 0
    ∧ (main w args).written
        = (if bj then
            [(w.baseDir ++ "/outputs/" ++ (stem (basename args.video) ++ "_" ++ w.now)
                ++ ".json",
              String.mk (savedJsonContent (basename args.video)
                { content := content, processingTime := w.elapsed
                  model := (applyOverrides initConfig args).model
                  fps := (applyOverrides initConfig args).fps } w.now))]
          else [])
          ++ (if bt then
            [(w.baseDir ++ "/outputs/" ++ (stem (basename args.video) ++ "_" ++ w.now)
                ++ ".txt",
              String.mk (savedTxtContent (basename args.video)
                { content := content, processingTime := w.elapsed
                  model := (applyOverrides initConfig args).model
                  fps := (applyOverrides initConfig args).fps } w.now))]
          else [])
    ∧ (main w args).logErrors
        = (if bj then [] else ["Ошибка сохранения JSON"])
          ++ (if bt then [] else ["Ошибка сохранения TXT"]) := by
  obtain ⟨v, pr, f, m, t⟩ := args
  cases hp
  cases bj <;> cases bt <;>
    simp [main, mainTry, annotateVideo, hv, hsvc, saveResults, hj, ht]

/-- C4 witness: at a concrete world where only the JSON path is
unwritable, the TXT file is still written, the JSON failure is logged and
the run exits 0. -/
theorem C4_write_failures_independent_witness :
    ({ testWorld with
        writeOk := fun p => p != "/app/outputs/clip_20240101_120000.json" } : World).writeOk
      ("/app" ++ "/outputs/" ++ (stem (basename "/videos/clip.mp4") ++ "_" ++ "20240101_120000")
        ++ ".json") = false
    ∧ (main { testWorld with
        writeOk := fun p => p != "/app/outputs/clip_20240101_120000.json" } testArgs).exitCode
      = 0
    ∧ (main { testWorld with
        writeOk := fun p => p != "/app/outputs/clip_20240101_120000.json" } testArgs).logErrors
      = ["Ошибка сохранения JSON"]
    ∧ (main { testWorld with
        writeOk := fun p => p != "/app/outputs/clip_20240101_120000.json" } testArgs).written
      = [("/app" ++ "/outputs/" ++ (stem (basename "/videos/clip.mp4") ++ "_"
            ++ "20240101_120000") ++ ".txt",
          String.mk (savedTxtContent (basename "/videos/clip.mp4")
            { content := "Человек идёт по улице.", processingTime := 2
              model := (applyOverrides initConfig testArgs).model
              fps := (applyOverrides initConfig testArgs).fps } "20240101_120000"))] := by
  have h := C4_write_failures_independent
    { testWorld with writeOk := fun p => p != "/app/outputs/clip_20240101_120000.json" }
    testArgs "Человек идёт по улице." false true rfl rfl rfl (by decide) (by decide)
  exact ⟨by decide, h.1, h.2.2, by simpa using h.2.1⟩

end AnnotateVideo
